import Mathlib

/-!
Shallow embedding of `denova/os/command.py` (the command-execution subsystem):
argument normalization (`get_run_args`), output formatting (`format_output`,
`update_stderrout`), the synchronous executor (`run`), the asynchronous
executor (`background`) and the wait primitive (`wait_child`).

External collaborators (the OS spawn primitive, the filesystem glob, the
logger) are modelled as explicit parameters; Python mutation of the result
object becomes pure record transformation; Python exceptions become
`Except` errors.
-/

/-- The ASCII whitespace characters stripped by Python `str.strip()`:
space, tab, newline, carriage return, vertical tab, form feed. -/
def isPySpace (c : Char) : Bool :=
  c = ' ' || c = '\t' || c = '\n' || c = Char.ofNat 13 || c = Char.ofNat 11 ||
    c = Char.ofNat 12

/-- Model of `str.strip()` on a character list: drop whitespace from both ends. -/
def pyStripL (l : List Char) : List Char :=
  List.rdropWhile isPySpace (List.dropWhile isPySpace l)

/-- Model of `str.strip()`: remove leading and trailing whitespace. -/
def pyStrip (s : String) : String :=
  ⟨pyStripL s.data⟩

theorem head?_dropWhile_not {α : Type} (p : α → Bool) (l : List α) (a : α)
    (h : (List.dropWhile p l).head? = some a) : p a = false := by
  induction l with
  | nil => simp at h
  | cons x t ih =>
    by_cases hx : p x = true
    · rw [List.dropWhile_cons_of_pos hx] at h
      exact ih h
    · rw [List.dropWhile_cons_of_neg hx, List.head?_cons] at h
      injection h with hxa
      subst hxa
      simpa using hx

theorem dropWhile_eq_self_of_head {α : Type} (p : α → Bool) (l : List α)
    (h : ∀ a, l.head? = some a → p a = false) : List.dropWhile p l = l := by
  cases l with
  | nil => rfl
  | cons x t =>
    have hx := h x (by rw [List.head?_cons])
    rw [List.dropWhile_cons_of_neg (by simp [hx])]

theorem pyStripL_no_leading (l : List Char) :
    List.dropWhile isPySpace (pyStripL l) = pyStripL l := by
  apply dropWhile_eq_self_of_head
  intro a ha
  obtain ⟨t, ht⟩ :=
    List.rdropWhile_prefix isPySpace (List.dropWhile isPySpace l)
  have ht2 : pyStripL l ++ t = List.dropWhile isPySpace l := ht
  have hA : (List.dropWhile isPySpace l).head? = some a := by
    rw [← ht2]
    cases hB : pyStripL l with
    | nil => rw [hB] at ha; simp at ha
    | cons b bs =>
      rw [hB] at ha
      rw [List.head?_cons] at ha
      simp only [List.cons_append, List.head?_cons]
      exact ha
  exact head?_dropWhile_not isPySpace l a hA

theorem pyStripL_idem (l : List Char) : pyStripL (pyStripL l) = pyStripL l := by
  have h := pyStripL_no_leading l
  show List.rdropWhile isPySpace (List.dropWhile isPySpace (pyStripL l)) = pyStripL l
  rw [h]
  show List.rdropWhile isPySpace
      (List.rdropWhile isPySpace (List.dropWhile isPySpace l)) = _
  exact List.rdropWhile_idempotent isPySpace (List.dropWhile isPySpace l)

theorem pyStrip_idem (s : String) : pyStrip (pyStrip s) = pyStrip s := by
  show String.mk (pyStripL (pyStripL s.data)) = String.mk (pyStripL s.data)
  rw [pyStripL_idem]

/-- A Python stream value: either raw captured bytes or decoded text.
`subprocess.run` delivers `bytes`; `format_output` replaces them by `str`. -/
inductive PyData where
  | bytes (bs : List Nat)
  | str (s : String)
deriving DecidableEq

/-- Model of `bytes.decode()`: one character per byte. This embeds the
decode step for single-byte (ASCII/Latin-1 range) content, which is all the
development evaluates it on; no theorem depends on the byte-to-character map. -/
def pyDecode (bs : List Nat) : String :=
  ⟨bs.map Char.ofNat⟩

/-- The value of a stream after the `isinstance(.., str)` check: bytes are
decoded, text is left as is. -/
def toStr : PyData → String
  | .bytes bs => pyDecode bs
  | .str s => s

/-- Python truthiness of an optional stream value (`if result.stderr:`):
`None` and empty strings/bytes are falsy. -/
def pyTruthy : Option PyData → Bool
  | none => false
  | some (.str s) => !s.isEmpty
  | some (.bytes bs) => !bs.isEmpty

/-- The text of an optional stream value; used to model
`result.stderr + result.stdout`, where `format_output` has already
ensured `result.stderr` is text (`None`/bytes cases are unreachable there). -/
def pyStrVal : Option PyData → String
  | some (.str s) => s
  | some (.bytes bs) => pyDecode bs
  | none => ""

/-- Record for `subprocess.CompletedProcess` / `subprocess.CalledProcessError` as used
by `run()`: the executed argument list, the exit code, the two captured
streams and the added combined `stderrout` attribute. -/
structure CProc where
  args : List String
  returncode : Int
  stdout : Option PyData
  stderr : Option PyData
  stderrout : Option String
deriving DecidableEq

/-- Translation of `format_output(result)` (source lines 362-391): set `stderrout` to
`None`; if `stderr` is present, decode it if bytes, strip it, and record it
as `stderrout`; if `stdout` is present, decode it if bytes, strip it, then
set `stderrout` to `stderr + stdout` when `stderr` is truthy and to
`stdout` otherwise. -/
def formatOutput (r : CProc) : CProc :=
  let r1 : CProc := { r with stderrout := none }
  let r2 : CProc :=
    match r1.stderr with
    | none => r1
    | some d =>
      let e := pyStrip (toStr d)
      { r1 with stderr := some (.str e), stderrout := some e }
  match r2.stdout with
  | none => r2
  | some d =>
    let s := pyStrip (toStr d)
    if pyTruthy r2.stderr then
      { r2 with stdout := some (.str s), stderrout := some (pyStrVal r2.stderr ++ s) }
    else
      { r2 with stdout := some (.str s), stderrout := some s }

/-- Translation of `update_stderrout(result)` (source lines 406-426): the source duplicates
the body of `format_output` under a second name; `handle_run_error` applies
it to the already-formatted error. -/
def updateStderrout (r : CProc) : CProc :=
  let r1 : CProc := { r with stderrout := none }
  let r2 : CProc :=
    match r1.stderr with
    | none => r1
    | some d =>
      let e := pyStrip (toStr d)
      { r1 with stderr := some (.str e), stderrout := some e }
  match r2.stdout with
  | none => r2
  | some d =>
    let s := pyStrip (toStr d)
    if pyTruthy r2.stderr then
      { r2 with stdout := some (.str s), stderrout := some (pyStrVal r2.stderr ++ s) }
    else
      { r2 with stdout := some (.str s), stderrout := some s }

theorem updateStderrout_eq (r : CProc) : updateStderrout r = formatOutput r := rfl

/-- The outcome the OS reports for a `subprocess.run(args, check=True, ...)`
call with the default `stdout=subprocess.PIPE` / `stderr=subprocess.PIPE`
(source lines 142-148): exit code and captured streams. With `check=True`,
a non-zero exit code raises `subprocess.CalledProcessError` carrying the
same code and the same captured streams. -/
structure SpawnOutcome where
  returncode : Int
  stdout : Option PyData
  stderr : Option PyData
deriving DecidableEq

/-- Translation of `run()` after argument normalization, as a function of the spawn
outcome (source lines 122-172). `output_bytes` is the keyword option
extracted and deleted at lines 134-140; faithful to the source, it is
never consulted afterward: the success branch applies `format_output`
unconditionally (`verbose` only logs). The `CalledProcessError` branch
(lines 150-154) formats the error object in place, calls
`handle_run_error` (which applies `update_stderrout` to the same object
and returns `None`), and re-raises the mutated error. -/
def runResult (output_bytes : Bool) (args : List String) (o : SpawnOutcome) :
    Except CProc CProc :=
  if o.returncode = 0 then
    .ok (formatOutput
      { args := args, returncode := o.returncode, stdout := o.stdout,
        stderr := o.stderr, stderrout := none })
  else
    .error (updateStderrout (formatOutput
      { args := args, returncode := o.returncode, stdout := o.stdout,
        stderr := o.stderr, stderrout := none }))

/-- Wildcard test of `get_run_args` (source line 351):
`'*' in arg or '?' in arg`. -/
def hasWildcard (arg : String) : Bool :=
  arg.data.contains '*' || arg.data.contains '?'

/-- The double-quote character. -/
def dquote : Char := Char.ofNat 34

/-- The single-quote character. -/
def squote : Char := Char.ofNat 39

/-- Test `arg.startswith(q) and arg.endswith(q)` for a one-character quote. -/
def encasedBy (arg : String) (q : Char) : Bool :=
  arg.data.head? = some q && arg.data.getLast? = some q

/-- Quote-encasement test of `get_run_args` (source lines 348-349): the
argument starts and ends with a double quote, or starts and ends with a
single quote. -/
def encasedStr (arg : String) : Bool :=
  encasedBy arg dquote || encasedBy arg squote

/-- One iteration of the argument loop of `get_run_args` (source lines
343-358): a wildcard argument is replaced by its filesystem glob expansion
(`args.extend(glob(arg))`) when globbing is on and the argument is not
quote-encased, and appended verbatim otherwise. The filesystem is the
parameter `globFn` (`glob.glob`). -/
def processArg (globFn : String → List String) (globbing : Bool)
    (arg : String) : List String :=
  if hasWildcard arg then
    if globbing && !encasedStr arg then globFn arg else [arg]
  else [arg]

/-- The argument list produced by `get_run_args` (source lines 341-360):
the extend/append loop over all arguments. `globbing` is the value of the
`glob` keyword option, which defaults to `True` (source lines 335-339). -/
def getRunArgs (globFn : String → List String) (globbing : Bool)
    (command_args : List String) : List String :=
  command_args.flatMap (processArg globFn globbing)

/-- The whitespace characters of `shlex.whitespace`: space, tab, carriage
return, newline. -/
def isShlexSpace (c : Char) : Bool :=
  c = ' ' || c = '\t' || c = Char.ofNat 13 || c = '\n'

/-- State machine for `shlexSplit`: remaining input, the open quote (if
any), the current token, whether a token is in progress, and the finished
tokens. -/
def shlexSplitAux : List Char → Option Char → List Char → Bool →
    List String → List String
  | [], none, cur, hasTok, acc => if hasTok then acc ++ [⟨cur⟩] else acc
  | [], some _, cur, _, acc => acc ++ [⟨cur⟩]
  | c :: rest, some q, cur, _, acc =>
    if c = q then shlexSplitAux rest none cur true acc
    else shlexSplitAux rest (some q) (cur ++ [c]) true acc
  | c :: rest, none, cur, hasTok, acc =>
    if c = dquote || c = squote then
      shlexSplitAux rest (some c) cur true acc
    else if isShlexSpace c then
      if hasTok then shlexSplitAux rest none [] false (acc ++ [⟨cur⟩])
      else shlexSplitAux rest none [] false acc
    else
      shlexSplitAux rest none (cur ++ [c]) true acc

/-- Model of `shlex.split` (Python standard library, POSIX mode) for
command-line strings without backslash escapes: shell-style word-splitting
where whitespace separates tokens and text between a pair of single or
double quotes, the quotes excluded, joins the current token. (On an
unterminated quote `shlex.split` raises; the model closes the last token.) -/
def shlexSplit (s : String) : List String :=
  shlexSplitAux s.data none [] false []

/-- A `subprocess.Popen` handle: the spawned process id and the argument
list it was started with. -/
structure Popen where
  pid : Nat
  args : List String
deriving DecidableEq

/-- The Python exceptions arising in `background()` and `wait_child()`. -/
inductive PyErr where
  | osError (strerror : Option String)
  | nameError (n : String)
  | valueError (msg : String)
deriving DecidableEq

/-- The names bound in the scope of `background()` when its `except`
handlers run: its parameters, the locals it assigns (source lines 247-266),
and the module-level bindings of `command.py`. `command_str` is not among
them — it is only ever a local variable of `handle_run_error`. -/
def backgroundScopeNames : List String :=
  ["command_args", "kwargs", "kwargs_str", "key", "ose", "e", "process",
   "log", "run", "run_verbose", "background", "get_run_args",
   "format_output", "handle_run_error", "update_stderrout", "nice",
   "nice_args", "wait_child", "show_stderr", "_init_log", "glob", "os",
   "shlex", "subprocess", "sys", "sleep", "Queue", "Thread"]

/-- Python name resolution: evaluating an identifier bound in no enclosing
scope raises `NameError`. -/
def resolveName (names : List String) (n : String) : Except PyErr Unit :=
  if n ∈ names then .ok () else .error (.nameError n)

/-- Whether `needle` occurs at the head of `hay`. -/
def matchesAt : List Char → List Char → Bool
  | [], _ => true
  | _ :: _, [] => false
  | a :: as, b :: bs => a = b && matchesAt as bs

/-- Helper for `strContainsSub`: `needle` occurs somewhere in the list. -/
def containsSubAux (needle : List Char) : List Char → Bool
  | [] => needle.isEmpty
  | c :: rest => matchesAt needle (c :: rest) || containsSubAux needle rest

/-- Python `needle in hay` on strings: substring containment. -/
def strContainsSub (hay needle : String) : Bool :=
  containsSubAux needle.data hay.data

/-- The `except OSError` handler of `background()` (source lines 268-291),
with the external world as parameters: `readTwo program_file` is what
`open(program_file).read(2)` returns, and `retryShell` is the outcome of
the retried `subprocess.Popen(command_args, shell=True, **kwargs)`.

The handler first evaluates the f-string
`'os error: command: ' + command_str` for `log.debug`; `command_str` is
unbound in `background()`, so this raises `NameError` before any recovery
logic runs. The remaining translation documents the intended control flow
of the source: on an `'Exec format error'` whose target file starts with
`#!` the retried process is spawned, after which the handler completes and
`background()` falls off the end of the function body — the caller would
receive `None`, not the handle; in every other case the original `OSError`
is re-raised. -/
def backgroundOnOSError (ose_strerror : Option String)
    (command_args : List String) (readTwo : String → String)
    (retryShell : Except PyErr Popen) : Except PyErr (Option Popen) := do
  -- log.debug of an f-string mentioning command_str: unbound name
  let _ ← resolveName backgroundScopeNames "command_str"
  -- log.debug of kwargs_str; log.exception(): no effect on control flow
  match ose_strerror with
  | some se =>
    if strContainsSub se "Exec format error" then
      -- program_file = command_args[0]
      let program_file := command_args.headD ""
      let first_chars := readTwo program_file
      if first_chars = "#!" then do
        let _p ← retryShell
        -- the handler ends; background() has no return statement left,
        -- so the function returns None
        pure none
      else
        -- log.debug('no #! in ...'); raise
        Except.error (.osError ose_strerror)
    else
      Except.error (.osError ose_strerror)
  | none => Except.error (.osError ose_strerror)

/-- The single-string re-tokenization step of `background()` (source lines
254-257): exactly one argument that contains a space character (`' ' in
command_args[0]`) is treated as a command-line string and split with
`shlex.split`; anything else is left as is. -/
def backgroundNormalize (command_args : List String) : List String :=
  match command_args with
  | [a] => if a.data.contains ' ' then shlexSplit a else [a]
  | l => l

/-- The spawn step of `background()` (source lines 265-301), after the
empty check and the re-tokenization: `subprocess.Popen` without a shell;
`OSError` goes to `backgroundOnOSError`; any other exception is re-raised
after a log call that also references the unbound `command_str`; on
success the `Popen` handle is returned. -/
def backgroundSpawn (cargs : List String)
    (popen : List String → Bool → Except PyErr Popen)
    (readTwo : String → String) : Except PyErr (Option Popen) :=
  match popen cargs false with
  | .ok process => .ok (some process)
  | .error (.osError se) =>
    backgroundOnOSError se cargs readTwo (popen cargs true)
  | .error err => do
    -- log.debug of an f-string mentioning command_str: unbound name
    let _ ← resolveName backgroundScopeNames "command_str"
    Except.error err

/-- Translation of `background()` (source lines 204-301): no arguments raises
`ValueError('missing command')`; a single argument containing a space is
re-tokenized; the process is spawned through `subprocess.Popen` (the
parameter `popen`, whose second argument is the `shell` flag, `False` for
the first attempt); an `OSError` from the spawn goes to the handler
`backgroundOnOSError`; any other exception is re-raised after a log call
that also references the unbound `command_str`; on success the `Popen`
handle is returned. -/
def background (command_args : List String)
    (popen : List String → Bool → Except PyErr Popen)
    (readTwo : String → String) : Except PyErr (Option Popen) :=
  if command_args = [] then .error (.valueError "missing command")
  else backgroundSpawn (backgroundNormalize command_args) popen readTwo

/-- A Python value passed to `wait_child`: either a `subprocess.Popen`
handle or some other object. -/
inductive PyObject where
  | popenObj (p : Popen)
  | other (desc : String)
deriving DecidableEq

/-- Translation of `wait_child(process)` (source lines 494-512): raise `ValueError` unless
the argument is a `subprocess.Popen` instance; otherwise block in
`os.waitpid(process.pid, 0)` until the child exits (modelled as returning
the reaped pid). -/
def waitChild (process : PyObject) : Except PyErr Nat :=
  match process with
  | .popenObj p => .ok p.pid
  | .other _ =>
    .error (.valueError "program must be an instance of subprocess.Popen")

/-- Test `isinstance(process, subprocess.Popen)` on a Python value. -/
def isPopenInstance : PyObject → Bool
  | .popenObj _ => true
  | .other _ => false

/-- The decode-and-strip step applied to one stream by `format_output`. -/
def stripData (d : PyData) : PyData :=
  .str (pyStrip (toStr d))

theorem string_isEmpty_empty {s : String} (h : s.isEmpty = true) : s = "" :=
  (String.isEmpty_iff s).mp h

theorem string_empty_append (s : String) : "" ++ s = s := by
  cases s
  rfl

/-- Closed form of `format_output`: both streams are decoded and stripped,
and `stderrout` is the code's combination (stdout alone when the stripped
stderr is empty or absent). -/
theorem formatOutput_eq (a : List String) (rc : Int) (so se : Option PyData)
    (sx : Option String) :
    formatOutput { args := a, returncode := rc, stdout := so, stderr := se,
                   stderrout := sx } =
    { args := a, returncode := rc, stdout := so.map stripData,
      stderr := se.map stripData,
      stderrout :=
        match se, so with
        | none, none => none
        | some e, none => some (pyStrip (toStr e))
        | none, some s => some (pyStrip (toStr s))
        | some e, some s =>
          if (pyStrip (toStr e)).isEmpty then some (pyStrip (toStr s))
          else some (pyStrip (toStr e) ++ pyStrip (toStr s)) } := by
  cases se with
  | none =>
    cases so with
    | none => rfl
    | some s => rfl
  | some e =>
    cases so with
    | none => rfl
    | some s =>
      by_cases h : (pyStrip (toStr e)).isEmpty
      · simp [formatOutput, stripData, pyTruthy, pyStrVal, h]
      · simp [formatOutput, stripData, pyTruthy, pyStrVal, h]

theorem stripData_idem (d : PyData) : stripData (stripData d) = stripData d := by
  simp [stripData, toStr, pyStrip_idem]

theorem formatOutput_formatOutput (r : CProc) :
    formatOutput (formatOutput r) = formatOutput r := by
  obtain ⟨a, rc, so, se, sx⟩ := r
  rw [formatOutput_eq]
  cases se with
  | none =>
    cases so with
    | none => rfl
    | some s =>
      rw [formatOutput_eq]
      simp [stripData, toStr, pyStrip_idem]
  | some e =>
    cases so with
    | none =>
      rw [formatOutput_eq]
      simp [stripData, toStr, pyStrip_idem]
    | some s =>
      rw [formatOutput_eq]
      simp [stripData, toStr, pyStrip_idem]

/-- The combined-output field after `format_output`, expressed the way the
spec states it: trimmed stderr concatenated with trimmed stdout when both
streams are present, the single trimmed stream when one is present, `None`
when both are absent. -/
theorem formatOutput_stderrout (r : CProc) :
    (formatOutput r).stderrout =
      match r.stderr, r.stdout with
      | some e, some s => some (pyStrip (toStr e) ++ pyStrip (toStr s))
      | some e, none => some (pyStrip (toStr e))
      | none, some s => some (pyStrip (toStr s))
      | none, none => none := by
  obtain ⟨a, rc, so, se, sx⟩ := r
  rw [formatOutput_eq]
  cases se with
  | none => cases so <;> rfl
  | some e =>
    cases so with
    | none => rfl
    | some s =>
      by_cases h : (pyStrip (toStr e)).isEmpty
      · have he := string_isEmpty_empty h
        simp [h, he, string_empty_append]
      · simp [h]

theorem formatOutput_returncode (r : CProc) :
    (formatOutput r).returncode = r.returncode := by
  obtain ⟨a, rc, so, se, sx⟩ := r
  rw [formatOutput_eq]

theorem formatOutput_stdout (r : CProc) :
    (formatOutput r).stdout = r.stdout.map stripData := by
  obtain ⟨a, rc, so, se, sx⟩ := r
  rw [formatOutput_eq]

theorem formatOutput_stderr (r : CProc) :
    (formatOutput r).stderr = r.stderr.map stripData := by
  obtain ⟨a, rc, so, se, sx⟩ := r
  rw [formatOutput_eq]

/-- C1: the spec states that with `output_as_bytes` (`output_bytes` in the
source) set to true, `run()` skips text decoding and returns the raw
captured bytes in `stdout`/`stderr`. The code extracts and deletes the
option (source lines 134-140) but never consults it: the success branch
applies `format_output` unconditionally, so at this input the captured
stdout bytes come back as the decoded, stripped text `"Hi"` — not as the
bytes `[72, 105]` — even though `output_bytes` is true. This contradicts
the function's own docstring (source lines 51-55). -/
theorem run_output_bytes_ignored :
    runResult true ["printf", "Hi"]
      { returncode := 0, stdout := some (.bytes [72, 105]), stderr := none } =
    Except.ok { args := ["printf", "Hi"], returncode := 0,
                stdout := some (.str "Hi"), stderr := none,
                stderrout := some "Hi" } := by
  rfl

/-- C2: the spec states that on an "exec format error" spawn failure where
the target file starts with `#!`, `background()` retries through a shell
and returns that handle. The `except OSError` handler's first statement
evaluates an f-string over `command_str`, a name bound nowhere in
`background()`, so every such failure raises `NameError` before the
recovery logic runs: at an input where the direct spawn fails with
`Exec format error`, the file starts with `#!`, and the shell retry would
succeed with pid 4242, the call produces `NameError` instead of the
handle. This contradicts the function's own docstring (source lines
206-208). -/
theorem background_shebang_recovery_unreachable :
    background ["./script.sh"]
      (fun _ sh =>
        if sh then Except.ok { pid := 4242, args := ["./script.sh"] }
        else Except.error (.osError (some "Exec format error")))
      (fun _ => "#!") =
    Except.error (.nameError "command_str") := by
  rfl

/-- C3: for every spawn outcome with exit status 0 (and any value of the
`output_bytes` option), `run()` returns a result whose `stderrout` is the
trimmed stderr concatenated with the trimmed stdout when both streams are
present, the single trimmed stream when only one is present, and `None`
when both are absent. -/
theorem run_zero_combined_output (b : Bool) (args : List String)
    (o : SpawnOutcome) (h : o.returncode = 0) :
    ∃ r, runResult b args o = Except.ok r ∧
      r.stderrout =
        match o.stderr, o.stdout with
        | some e, some s => some (pyStrip (toStr e) ++ pyStrip (toStr s))
        | some e, none => some (pyStrip (toStr e))
        | none, some s => some (pyStrip (toStr s))
        | none, none => none := by
  refine ⟨formatOutput
      { args := args, returncode := o.returncode, stdout := o.stdout,
        stderr := o.stderr, stderrout := none }, ?_, ?_⟩
  · unfold runResult
    rw [if_pos h]
  · rw [formatOutput_stderrout]

theorem run_zero_combined_output_witness :
    ∃ r, runResult false ["sh", "-c", "x"]
        { returncode := 0, stdout := some (.bytes [97]),
          stderr := some (.str " b ") } = Except.ok r ∧
      r.stderrout =
        some (pyStrip (toStr (.str " b ")) ++ pyStrip (toStr (.bytes [97]))) :=
  run_zero_combined_output false ["sh", "-c", "x"]
    { returncode := 0, stdout := some (.bytes [97]),
      stderr := some (.str " b ") } rfl

/-- C4: for every spawn outcome with a non-zero exit status, `run()` raises
(returns as `Except.error`, never swallows) a `CalledProcessError` that
carries the same exit code the OS reported, the decoded and stripped
stdout/stderr, and the combined `stderrout`. -/
theorem run_nonzero_raises (b : Bool) (args : List String) (o : SpawnOutcome)
    (h : ¬ o.returncode = 0) :
    ∃ f, runResult b args o = Except.error f ∧
      f.returncode = o.returncode ∧
      f.stdout = o.stdout.map stripData ∧
      f.stderr = o.stderr.map stripData ∧
      f.stderrout =
        match o.stderr, o.stdout with
        | some e, some s => some (pyStrip (toStr e) ++ pyStrip (toStr s))
        | some e, none => some (pyStrip (toStr e))
        | none, some s => some (pyStrip (toStr s))
        | none, none => none := by
  refine ⟨updateStderrout (formatOutput
      { args := args, returncode := o.returncode, stdout := o.stdout,
        stderr := o.stderr, stderrout := none }), ?_, ?_, ?_, ?_, ?_⟩
  · unfold runResult
    rw [if_neg h]
  · rw [updateStderrout_eq, formatOutput_formatOutput, formatOutput_returncode]
  · rw [updateStderrout_eq, formatOutput_formatOutput, formatOutput_stdout]
  · rw [updateStderrout_eq, formatOutput_formatOutput, formatOutput_stderr]
  · rw [updateStderrout_eq, formatOutput_formatOutput, formatOutput_stderrout]

theorem run_nonzero_raises_witness :
    ∃ f, runResult false ["false"]
        { returncode := 1, stdout := some (.bytes []),
          stderr := some (.bytes [101]) } = Except.error f ∧
      f.returncode = 1 ∧
      f.stdout = (some (PyData.bytes [])).map stripData ∧
      f.stderr = (some (PyData.bytes [101])).map stripData ∧
      f.stderrout =
        some (pyStrip (toStr (.bytes [101])) ++ pyStrip (toStr (.bytes []))) :=
  run_nonzero_raises false ["false"]
    { returncode := 1, stdout := some (.bytes []),
      stderr := some (.bytes [101]) } (by decide)

/-- C5: a quote-encased argument containing `*` or `?` is never expanded
against the filesystem — for every filesystem (`globFn`) and every value of
the `glob` option, `get_run_args` passes it through unchanged in place. -/
theorem quote_encased_wildcard_not_expanded
    (globFn : String → List String) (globbing : Bool)
    (pre post : List String) (arg : String)
    (hw : hasWildcard arg = true) (he : encasedStr arg = true) :
    getRunArgs globFn globbing (pre ++ arg :: post) =
      getRunArgs globFn globbing pre ++ arg ::
        getRunArgs globFn globbing post := by
  simp [getRunArgs, processArg, hw, he]

theorem quote_encased_wildcard_not_expanded_witness :
    getRunArgs (fun _ => ["a.txt", "b.txt"]) true
        (["echo"] ++ "\"*.txt\"" :: []) =
      getRunArgs (fun _ => ["a.txt", "b.txt"]) true ["echo"] ++
        "\"*.txt\"" :: getRunArgs (fun _ => ["a.txt", "b.txt"]) true [] :=
  quote_encased_wildcard_not_expanded (fun _ => ["a.txt", "b.txt"]) true
    ["echo"] [] "\"*.txt\"" (by decide) (by decide)

/-- C6: with globbing enabled (the default), a non-quote-encased wildcard
argument whose filesystem expansion is empty is dropped from the final
argument list rather than passed through literally. -/
theorem unmatched_glob_dropped (globFn : String → List String)
    (pre post : List String) (arg : String)
    (hw : hasWildcard arg = true) (he : encasedStr arg = false)
    (hz : globFn arg = []) :
    getRunArgs globFn true (pre ++ arg :: post) =
      getRunArgs globFn true pre ++ getRunArgs globFn true post := by
  simp [getRunArgs, processArg, hw, he, hz]

theorem unmatched_glob_dropped_witness :
    getRunArgs (fun _ => []) true (["ls"] ++ "nope*.tmp" :: []) =
      getRunArgs (fun _ => []) true ["ls"] ++
        getRunArgs (fun _ => []) true [] :=
  unmatched_glob_dropped (fun _ => []) ["ls"] [] "nope*.tmp" (by decide)
    (by decide) rfl

/-- C7 counterexample: the claim says a single argument containing
whitespace is re-tokenized by shell-style word-splitting. The source tests
only for a space character (`' ' in command_args[0]`, line 255), so the
single argument `"echo\thi"` — whose whitespace is a tab — is passed to
the spawn as one argument, while shell word-splitting would produce the
two arguments `["echo", "hi"]`. -/
theorem background_tab_arg_not_retokenized :
    ("echo\thi".data.any isShlexSpace = true) ∧
    shlexSplit "echo\thi" = ["echo", "hi"] ∧
    backgroundNormalize ["echo\thi"] = ["echo\thi"] ∧
    backgroundNormalize ["echo\thi"] ≠ shlexSplit "echo\thi" ∧
    background ["echo\thi"] (fun as _ => Except.ok { pid := 1, args := as })
        (fun _ => "") =
      Except.ok (some { pid := 1, args := ["echo\thi"] }) :=
  ⟨by decide, by decide, by decide, by decide, rfl⟩

/-- C7 amended: for every `background()` call given exactly one argument,
if that argument contains a space character it is re-tokenized with
`shlex.split` (shell-style word-splitting) before spawning, so callers may
pass either a pre-split argument list or a single command-line string. -/
theorem background_space_arg_retokenized (a : String)
    (h : ' ' ∈ a.data)
    (popen : List String → Bool → Except PyErr Popen)
    (readTwo : String → String) :
    background [a] popen readTwo =
      backgroundSpawn (shlexSplit a) popen readTwo := by
  simp [background, backgroundNormalize, h]

theorem background_space_arg_retokenized_witness :
    background ["sleep 1"] (fun as _ => Except.ok { pid := 7, args := as })
        (fun _ => "") =
      backgroundSpawn (shlexSplit "sleep 1")
        (fun as _ => Except.ok { pid := 7, args := as }) (fun _ => "") :=
  background_space_arg_retokenized "sleep 1" (by decide)
    (fun as _ => Except.ok { pid := 7, args := as }) (fun _ => "")

/-- C8: `background()` with no arguments fails immediately with
`ValueError` (invalid input), and `wait_child` fails immediately with
`ValueError` on any value that is not a `subprocess.Popen` handle; neither
error path retries. -/
theorem invalid_input_surfaced
    (popen : List String → Bool → Except PyErr Popen)
    (readTwo : String → String) (v : PyObject)
    (hv : isPopenInstance v = false) :
    background [] popen readTwo =
        Except.error (.valueError "missing command") ∧
    waitChild v = Except.error
      (.valueError "program must be an instance of subprocess.Popen") := by
  constructor
  · rfl
  · cases v with
    | popenObj p => simp [isPopenInstance] at hv
    | other d => rfl

theorem invalid_input_surfaced_witness :
    background [] (fun as _ => Except.ok { pid := 9, args := as })
        (fun _ => "") = Except.error (.valueError "missing command") ∧
    waitChild (.other "a string") = Except.error
      (.valueError "program must be an instance of subprocess.Popen") :=
  invalid_input_surfaced (fun as _ => Except.ok { pid := 9, args := as })
    (fun _ => "") (.other "a string") rfl

/-- C9: `format_output` is idempotent — applying it twice yields the same
`stdout`, `stderr` and `stderrout` fields as applying it once. -/
theorem format_output_idempotent (r : CProc) :
    (formatOutput (formatOutput r)).stdout = (formatOutput r).stdout ∧
    (formatOutput (formatOutput r)).stderr = (formatOutput r).stderr ∧
    (formatOutput (formatOutput r)).stderrout = (formatOutput r).stderrout := by
  rw [formatOutput_formatOutput]
  exact ⟨rfl, rfl, rfl⟩

/-- C10: a quote-encased argument is passed through `get_run_args`
verbatim, surrounding quote characters included — the argument-processing
step never strips them, for every filesystem and every `glob` setting. -/
theorem quote_encased_arg_verbatim (globFn : String → List String)
    (globbing : Bool) (arg : String) (he : encasedStr arg = true) :
    processArg globFn globbing arg = [arg] := by
  unfold processArg
  by_cases hw : hasWildcard arg
  · simp [hw, he]
  · simp [hw]

theorem quote_encased_arg_verbatim_witness :
    processArg (fun _ => []) true "\"hello world\"" = ["\"hello world\""] :=
  quote_encased_arg_verbatim (fun _ => []) true "\"hello world\"" (by decide)
